import Mathlib

/-!
Verification of the cypd engine specification.

The repository binds a Pure-Data-compatible engine (libpd) to Python; the
native engine itself (`cypd._libpd`) is not part of the Python sources, so
the engine semantics below are modelled from the specification document,
kept consistent with the observable behaviour recorded in the repository's
test suite (tests/test_cypd.py, tests/test_patches.py).

Numeric message payloads and array samples are modelled as integers: no
claim under verification depends on floating-point arithmetic, only on
exact round-tripping of opaque sample values.
-/

namespace Cypd

/-- Modelled from the spec: the error taxonomy of section 7
(InvalidPatchError, UnknownHandleError, OutOfRangeError, CyclicGraphError,
NotInitializedError, QueueFullError) plus the NotFound result of
`resolve_array`. -/
inductive PdError where
  | invalidPatch
  | unknownHandle
  | outOfRange
  | cyclicGraph
  | notInited
  | queueFull
  | notFound
deriving DecidableEq, Repr

/-- Modelled from the spec: an atom is either a float or a symbol
(payload floats modelled as integers). -/
inductive Atom where
  | afloat (x : Int)
  | asymbol (s : String)
deriving DecidableEq, Repr

/-- Modelled from the spec: a message is a tagged value, one of bang,
float, symbol, list-of-atoms, or compound/typed message. -/
inductive Msg where
  | bang
  | mfloat (x : Int)
  | msymbol (s : String)
  | mlist (atoms : List Atom)
  | mtyped (sel : String) (atoms : List Atom)
deriving DecidableEq, Repr

/-- Modelled from the spec: MIDI events enqueued by the MIDI send
operations of the binding surface. -/
inductive MidiEvent where
  | evNoteon (ch pitch vel : Int)
  | evControlchange (ch ctl val : Int)
  | evProgramchange (ch val : Int)
  | evPitchbend (ch val : Int)
  | evAftertouch (ch val : Int)
deriving DecidableEq, Repr

/-- Modelled from the spec: a patch is an identifier together with the
named receiver objects it declares and the arrays it declares (each array
a name with its sample data). Graph nodes and connections internal to the
patch are not needed by any claim under verification. -/
structure Patch where
  pid : Nat
  receivers : List String
  arrays : List (String × List Int)
deriving DecidableEq, Repr

/-- Modelled from the spec: the scheduler state machine of section 4.2,
`Uninitialized -> Ready (after engine init) -> Running (DSP on) <-> Ready
(DSP off) -> Released`. -/
inductive LifeState where
  | uninit
  | ready
  | running
  | released
deriving DecidableEq, Repr

/-- Modelled from the spec: the engine context object of section 9 — the
lifecycle state, the open patches of the Signal Graph Store, the
subscription names of the Message Bus (in subscription order), the staged
compound-message builder (capacity and accumulated atoms), the outbound
MIDI portion of the Cross-Domain Queue, the fixed block size negotiated at
init, and the next fresh patch identifier. -/
structure Engine where
  life : LifeState
  blocksize : Nat
  patches : List Patch
  subs : List String
  stage : Option (Nat × List Atom)
  midiQueue : List MidiEvent
  nextPid : Nat
deriving DecidableEq, Repr

/-- The engine before any initialization. -/
def emptyEngine : Engine :=
  { life := .uninit, blocksize := 64, patches := [], subs := [],
    stage := none, midiQueue := [], nextPid := 1 }

/-- An engine accepts operations exactly in the Ready and Running states. -/
def Engine.live (e : Engine) : Bool :=
  e.life == .ready || e.life == .running

/-- Modelled from the spec: `init` brings an uninitialized or released
engine to Ready with a fresh state (block size 64 per the concrete
engine); a second init on a live engine reports failure (returns false)
and changes nothing, matching tests/test_cypd.py test_init and
test_release. -/
def init (e : Engine) : Engine × Bool :=
  if e.life = .uninit ∨ e.life = .released then
    ({ life := .ready, blocksize := 64, patches := [], subs := [],
       stage := none, midiQueue := [], nextPid := 1 }, true)
  else (e, false)

/-- Modelled from the spec: `release` tears the engine down to the
Released state, dropping all patches, subscriptions and staged state. -/
def release (e : Engine) : Engine × Except PdError Unit :=
  if e.live then
    ({ e with
        life := .released, patches := [], subs := [],
        stage := none, midiQueue := [] }, .ok ())
  else (e, .error .notInited)

/-- Modelled from the spec: `dsp` toggles between Ready (DSP off) and
Running (DSP on). -/
def dsp (e : Engine) (flag : Bool) : Engine × Except PdError Unit :=
  if e.live then
    ({ e with life := if flag then .running else .ready }, .ok ())
  else (e, .error .notInited)

/-- A receiver object named `n` exists: either a live subscription or a
receiver declared by a currently open patch. -/
def existsCore (e : Engine) (n : String) : Bool :=
  e.subs.contains n || e.patches.any (fun p => p.receivers.contains n)

/-- Modelled from the spec: `exists(name)` answers whether at least one
live receiver object matching the name currently exists. -/
def pdExists (e : Engine) (n : String) : Engine × Except PdError Bool :=
  if e.live then (e, .ok (existsCore e n)) else (e, .error .notInited)

/-- Modelled from the spec: `subscribe(name)` registers a subscription
(a receiver bound to the name); subscribing an already-subscribed name
reports failure and changes nothing. -/
def subscribe (e : Engine) (n : String) : Engine × Except PdError Bool :=
  if e.live then
    if e.subs.contains n then (e, .ok false)
    else ({ e with subs := e.subs ++ [n] }, .ok true)
  else (e, .error .notInited)

/-- Modelled from the spec: `unsubscribe(name)` cancels the matching
subscription, leaving no registration for the name. -/
def unsubscribe (e : Engine) (n : String) : Engine × Except PdError Unit :=
  if e.live then
    ({ e with subs := e.subs.filter (fun s => s ≠ n) }, .ok ())
  else (e, .error .notInited)

/-- Core of send: delivered is true iff a receiver object with the name
exists; the subscriber callback fires exactly when the name is
subscribed. Returns the delivered flag and the callback invocations. -/
def sendCore (e : Engine) (n : String) (m : Msg) :
    Bool × List (String × Msg) :=
  if existsCore e n then
    (true, if e.subs.contains n then [(n, m)] else [])
  else (false, [])

/-- Modelled from the spec: `send(name, message) -> delivered`; a missing
receiver is not an error — the send reports non-delivery. The callback
invocations triggered by the send are returned alongside. -/
def send (e : Engine) (n : String) (m : Msg) :
    Engine × Except PdError (Bool × List (String × Msg)) :=
  if e.live then (e, .ok (sendCore e n m)) else (e, .error .notInited)

/-- `send_bang` from the binding surface. -/
def send_bang (e : Engine) (n : String) :
    Engine × Except PdError (Bool × List (String × Msg)) :=
  send e n .bang

/-- `send_float` from the binding surface. -/
def send_float (e : Engine) (n : String) (x : Int) :
    Engine × Except PdError (Bool × List (String × Msg)) :=
  send e n (.mfloat x)

/-- `send_symbol` from the binding surface. -/
def send_symbol (e : Engine) (n : String) (s : String) :
    Engine × Except PdError (Bool × List (String × Msg)) :=
  send e n (.msymbol s)

/-- Modelled from the spec: a patch source file is opaque to the engine —
"treated as parse succeeds or fails". A resolvable, parseable source
yields the receiver names and arrays its graph declares; any other source
is invalid. -/
inductive PatchSource where
  | valid (receivers : List String) (arrays : List (String × List Int))
  | invalid
deriving DecidableEq, Repr

/-- Modelled from the spec: `load/open_patch` parses and builds the graph,
registering the patch's named objects; it fails with InvalidPatchError if
the source cannot be resolved or parsed, leaving previously loaded
patches untouched. Successful loads return a positive patch identifier. -/
def open_patch (e : Engine) (src : PatchSource) :
    Engine × Except PdError Nat :=
  if e.live then
    match src with
    | .invalid => (e, .error .invalidPatch)
    | .valid rs ars =>
        ({ e with
            patches := e.patches ++ [{ pid := e.nextPid, receivers := rs, arrays := ars }],
            nextPid := e.nextPid + 1 }, .ok e.nextPid)
  else (e, .error .notInited)

/-- Modelled from the spec: `close(PatchHandle)` releases everything the
patch owns and unregisters its named receivers; a stale handle is
reported as UnknownHandleError. -/
def close_patch (e : Engine) (pid : Nat) : Engine × Except PdError Unit :=
  if e.live then
    if e.patches.any (fun p => p.pid == pid) then
      ({ e with patches := e.patches.filter (fun p => p.pid ≠ pid) }, .ok ())
    else (e, .error .unknownHandle)
  else (e, .error .notInited)

/-- `get_blocksize` from the binding surface: the fixed block size of the
session. -/
def get_blocksize (e : Engine) : Engine × Except PdError Nat :=
  if e.live then (e, .ok e.blocksize) else (e, .error .notInited)

/-- Look an array name up across the open patches, first declaration
wins. -/
def lookupArray : List Patch → String → Option (List Int)
  | [], _ => none
  | p :: ps, n =>
    match p.arrays.lookup n with
    | some d => some d
    | none => lookupArray ps n

/-- Replace the data of one array entry when its name matches. -/
def replaceEntry (n : String) (d : List Int) : String × List Int → String × List Int
  | (k, v) => if k = n then (k, d) else (k, v)

/-- Replace the data of array `n` inside one patch. -/
def Patch.setArray (p : Patch) (n : String) (d : List Int) : Patch :=
  { p with arrays := p.arrays.map (replaceEntry n d) }

/-- Replace the data of array `n` in the first patch that declares it. -/
def setFirstArray : List Patch → String → List Int → List Patch
  | [], _, _ => []
  | p :: ps, n, d =>
    if (p.arrays.lookup n).isSome then p.setArray n d :: ps
    else p :: setFirstArray ps n d

/-- Modelled from the spec: `array_size(name)`; per the repository tests
a missing array is reported by a strictly negative size (-1), not by an
exception. -/
def array_size (e : Engine) (n : String) : Engine × Except PdError Int :=
  if e.live then
    match lookupArray e.patches n with
    | some d => (e, .ok (d.length : Int))
    | none => (e, .ok (-1))
  else (e, .error .notInited)

/-- Overwrite the slice of `d` starting at `off` with `xs`. -/
def writeSlice (d : List Int) (off : Nat) (xs : List Int) : List Int :=
  d.take off ++ xs ++ d.drop (off + xs.length)

/-- Modelled from the spec: `write(offset, samples)` with bounds checking
— a write reaching past the declared array length fails with
OutOfRangeError and modifies nothing; a missing array is NotFound. -/
def write_array (e : Engine) (n : String) (off : Nat) (xs : List Int) :
    Engine × Except PdError Unit :=
  if e.live then
    match lookupArray e.patches n with
    | none => (e, .error .notFound)
    | some d =>
      if off + xs.length ≤ d.length then
        ({ e with patches := setFirstArray e.patches n (writeSlice d off xs) }, .ok ())
      else (e, .error .outOfRange)
  else (e, .error .notInited)

/-- Modelled from the spec: `read(offset, count)` with bounds checking. -/
def read_array (e : Engine) (n : String) (off : Nat) (cnt : Nat) :
    Engine × Except PdError (List Int) :=
  if e.live then
    match lookupArray e.patches n with
    | none => (e, .error .notFound)
    | some d =>
      if off + cnt ≤ d.length then (e, .ok ((d.drop off).take cnt))
      else (e, .error .outOfRange)
  else (e, .error .notInited)

/-- Modelled from the spec: `start_message(capacity)` opens a fresh stage
for compound-message building. -/
def start_message (e : Engine) (cap : Nat) : Engine × Except PdError Bool :=
  if e.live then ({ e with stage := some (cap, []) }, .ok true)
  else (e, .error .notInited)

/-- Append an atom to the stage if one is open and under capacity. -/
def addAtomCore (e : Engine) (a : Atom) : Engine :=
  match e.stage with
  | none => e
  | some (cap, atoms) =>
    if atoms.length < cap then { e with stage := some (cap, atoms ++ [a]) }
    else e

/-- `add_float` from the binding surface. -/
def add_float (e : Engine) (x : Int) : Engine × Except PdError Unit :=
  if e.live then (addAtomCore e (.afloat x), .ok ()) else (e, .error .notInited)

/-- `add_symbol` from the binding surface. -/
def add_symbol (e : Engine) (s : String) : Engine × Except PdError Unit :=
  if e.live then (addAtomCore e (.asymbol s), .ok ()) else (e, .error .notInited)

/-- Modelled from the spec: `finish_as_list(name)` sends the staged atoms
as a list message and clears the stage even when delivery fails. -/
def finish_list (e : Engine) (n : String) :
    Engine × Except PdError (Bool × List (String × Msg)) :=
  if e.live then
    match e.stage with
    | none => (e, .ok (false, []))
    | some (_, atoms) =>
        let e1 := { e with stage := none }
        (e1, .ok (sendCore e1 n (.mlist atoms)))
  else (e, .error .notInited)

/-- Modelled from the spec: `finish_as_message(selector, name)` sends the
staged atoms as a typed message and clears the stage even when delivery
fails. -/
def finish_message (e : Engine) (sel : String) (n : String) :
    Engine × Except PdError (Bool × List (String × Msg)) :=
  if e.live then
    match e.stage with
    | none => (e, .ok (false, []))
    | some (_, atoms) =>
        let e1 := { e with stage := none }
        (e1, .ok (sendCore e1 n (.mtyped sel atoms)))
  else (e, .error .notInited)

/-- A 7-bit MIDI data value. -/
def in7bit (v : Int) : Bool := decide (0 ≤ v ∧ v ≤ 127)

/-- A legal MIDI channel (non-negative; channels ≥ 16 address further
ports). -/
def chanOk (c : Int) : Bool := decide (0 ≤ c)

/-- Modelled from the spec: MIDI sends enqueue the event on the
Cross-Domain Queue for the engine to consume on its own schedule; they
report success for in-range arguments whether or not any patch consumes
the event. `noteon(channel, pitch, velocity)`. -/
def noteon (e : Engine) (ch pitch vel : Int) : Engine × Except PdError Bool :=
  if e.live then
    if chanOk ch && in7bit pitch && in7bit vel then
      ({ e with midiQueue := e.midiQueue ++ [.evNoteon ch pitch vel] }, .ok true)
    else (e, .ok false)
  else (e, .error .notInited)

/-- `controlchange(channel, controller, value)`; see `noteon`. -/
def controlchange (e : Engine) (ch ctl val : Int) : Engine × Except PdError Bool :=
  if e.live then
    if chanOk ch && in7bit ctl && in7bit val then
      ({ e with midiQueue := e.midiQueue ++ [.evControlchange ch ctl val] }, .ok true)
    else (e, .ok false)
  else (e, .error .notInited)

/-- `programchange(channel, value)`; see `noteon`. -/
def programchange (e : Engine) (ch val : Int) : Engine × Except PdError Bool :=
  if e.live then
    if chanOk ch && in7bit val then
      ({ e with midiQueue := e.midiQueue ++ [.evProgramchange ch val] }, .ok true)
    else (e, .ok false)
  else (e, .error .notInited)

/-- `pitchbend(channel, value)` with the signed 14-bit range; see
`noteon`. -/
def pitchbend (e : Engine) (ch val : Int) : Engine × Except PdError Bool :=
  if e.live then
    if chanOk ch && decide (-8192 ≤ val ∧ val ≤ 8191) then
      ({ e with midiQueue := e.midiQueue ++ [.evPitchbend ch val] }, .ok true)
    else (e, .ok false)
  else (e, .error .notInited)

/-- `aftertouch(channel, value)`; see `noteon`. -/
def aftertouch (e : Engine) (ch val : Int) : Engine × Except PdError Bool :=
  if e.live then
    if chanOk ch && in7bit val then
      ({ e with midiQueue := e.midiQueue ++ [.evAftertouch ch val] }, .ok true)
    else (e, .ok false)
  else (e, .error .notInited)

/-- The operations of the engine surface, reified so lifecycle and
invariance statements can quantify over "every operation". -/
inductive Op where
  | opInit
  | opRelease
  | opDsp (flag : Bool)
  | opSubscribe (n : String)
  | opUnsubscribe (n : String)
  | opExists (n : String)
  | opSend (n : String) (m : Msg)
  | opOpenPatch (src : PatchSource)
  | opClosePatch (pid : Nat)
  | opGetBlocksize
  | opArraySize (n : String)
  | opWriteArray (n : String) (off : Nat) (xs : List Int)
  | opReadArray (n : String) (off : Nat) (cnt : Nat)
  | opStartMessage (cap : Nat)
  | opAddFloat (x : Int)
  | opAddSymbol (s : String)
  | opFinishList (n : String)
  | opFinishMessage (sel n : String)
  | opNoteon (ch pitch vel : Int)
  | opControlchange (ch ctl val : Int)
  | opProgramchange (ch val : Int)
  | opPitchbend (ch val : Int)
  | opAftertouch (ch val : Int)
deriving DecidableEq, Repr

/-- Forget an operation's value, keeping the resulting engine state and
the error, if any. -/
def errOf {α : Type} : Except PdError α → Option PdError
  | .ok _ => none
  | .error er => some er

/-- Run one reified operation: the new engine state and the error, if
any. `init` reports already-initialized by a boolean, not an error. -/
def runOp : Op → Engine → Engine × Option PdError
  | .opInit, e => ((init e).1, none)
  | .opRelease, e => let r := release e; (r.1, errOf r.2)
  | .opDsp b, e => let r := dsp e b; (r.1, errOf r.2)
  | .opSubscribe n, e => let r := subscribe e n; (r.1, errOf r.2)
  | .opUnsubscribe n, e => let r := unsubscribe e n; (r.1, errOf r.2)
  | .opExists n, e => let r := pdExists e n; (r.1, errOf r.2)
  | .opSend n m, e => let r := send e n m; (r.1, errOf r.2)
  | .opOpenPatch src, e => let r := open_patch e src; (r.1, errOf r.2)
  | .opClosePatch pid, e => let r := close_patch e pid; (r.1, errOf r.2)
  | .opGetBlocksize, e => let r := get_blocksize e; (r.1, errOf r.2)
  | .opArraySize n, e => let r := array_size e n; (r.1, errOf r.2)
  | .opWriteArray n off xs, e => let r := write_array e n off xs; (r.1, errOf r.2)
  | .opReadArray n off cnt, e => let r := read_array e n off cnt; (r.1, errOf r.2)
  | .opStartMessage cap, e => let r := start_message e cap; (r.1, errOf r.2)
  | .opAddFloat x, e => let r := add_float e x; (r.1, errOf r.2)
  | .opAddSymbol s, e => let r := add_symbol e s; (r.1, errOf r.2)
  | .opFinishList n, e => let r := finish_list e n; (r.1, errOf r.2)
  | .opFinishMessage sel n, e => let r := finish_message e sel n; (r.1, errOf r.2)
  | .opNoteon ch p v, e => let r := noteon e ch p v; (r.1, errOf r.2)
  | .opControlchange ch c v, e => let r := controlchange e ch c v; (r.1, errOf r.2)
  | .opProgramchange ch v, e => let r := programchange e ch v; (r.1, errOf r.2)
  | .opPitchbend ch v, e => let r := pitchbend e ch v; (r.1, errOf r.2)
  | .opAftertouch ch v, e => let r := aftertouch e ch v; (r.1, errOf r.2)

/-! Concrete engine states used by witnesses. -/

/-- A freshly initialized engine: Ready, nothing loaded. -/
def engReady : Engine := (init emptyEngine).1

/-- A ready engine with one open patch declaring receivers `mybang` and
`myfloat` and a 4-sample array `array1`. -/
def engPatch : Engine :=
  (open_patch engReady (.valid ["mybang", "myfloat"] [("array1", [0, 0, 0, 0])])).1

/-! Helper lemmas. -/

/-- `existsCore` as a proposition: some subscription or some open patch
declares the name. -/
theorem existsCore_true_iff (e : Engine) (n : String) :
    existsCore e n = true ↔ n ∈ e.subs ∨ ∃ p ∈ e.patches, n ∈ p.receivers := by
  simp [existsCore, List.any_eq_true]

theorem subscribe_fst_live (e : Engine) (n : String) :
    ((subscribe e n).1).live = e.live := by
  unfold subscribe
  split_ifs <;> rfl

theorem unsubscribe_fst_live (e : Engine) (n : String) :
    ((unsubscribe e n).1).live = e.live := by
  unfold unsubscribe
  split_ifs <;> rfl

theorem send_fst_eq (e : Engine) (n : String) (m : Msg) :
    (send e n m).1 = e := by
  unfold send
  split_ifs <;> rfl

/-! The claims. -/

/-- C1: for every name and every message, `send` returns delivered=true
iff at least one receiver object with that name exists (in an open patch
or as a subscription); with zero live receivers it returns not-delivered,
fires no subscriber callback, and raises no error. -/
theorem send_delivered_iff_receiver (e : Engine) (n : String) (m : Msg)
    (h : e.live = true) :
    ∃ d cbs, send e n m = (e, .ok (d, cbs))
      ∧ (d = true ↔ n ∈ e.subs ∨ ∃ p ∈ e.patches, n ∈ p.receivers)
      ∧ (d = false → cbs = []) := by
  refine ⟨(sendCore e n m).1, (sendCore e n m).2, ?_, ?_, ?_⟩
  · simp [send, h]
  · rw [← existsCore_true_iff]
    unfold sendCore
    by_cases hex : existsCore e n = true <;> simp [hex]
  · unfold sendCore
    by_cases hex : existsCore e n = true <;> simp [hex]

/-- C1 witness: sending a bang to a name nobody receives on a fresh
engine is not delivered, fires no callback, raises no error. -/
theorem send_delivered_iff_receiver_witness :
    ∃ d cbs, send engReady "nonexistent_receiver_12345" .bang = (engReady, .ok (d, cbs))
      ∧ (d = true ↔ "nonexistent_receiver_12345" ∈ engReady.subs
          ∨ ∃ p ∈ engReady.patches, "nonexistent_receiver_12345" ∈ p.receivers)
      ∧ (d = false → cbs = []) :=
  send_delivered_iff_receiver engReady "nonexistent_receiver_12345" .bang (by decide)

theorem unsub_contains_false (e : Engine) (n : String) (h : e.live = true) :
    ((unsubscribe e n).1).subs.contains n = false := by
  simp [unsubscribe, h]

/-- C6: subscribe(name); send(name, m1); unsubscribe(name); send(name, m2)
— the second send delivers to zero callbacks: unsubscribe exactly cancels
the matching subscribe, leaving no stale registration. -/
theorem unsubscribe_no_stale_registration (e : Engine) (n : String) (m1 m2 : Msg)
    (h : e.live = true) :
    ∃ d, send (unsubscribe (send (subscribe e n).1 n m1).1 n).1 n m2
      = ((unsubscribe (send (subscribe e n).1 n m1).1 n).1, .ok (d, [])) := by
  have h1 : ((subscribe e n).1).live = true := by
    rw [subscribe_fst_live]; exact h
  have hs : (send (subscribe e n).1 n m1).1 = (subscribe e n).1 := send_fst_eq _ n m1
  rw [hs]
  have h2 : ((unsubscribe (subscribe e n).1 n).1).live = true := by
    rw [unsubscribe_fst_live]; exact h1
  have hc : ((unsubscribe (subscribe e n).1 n).1).subs.contains n = false :=
    unsub_contains_false _ n h1
  refine ⟨(sendCore ((unsubscribe (subscribe e n).1 n).1) n m2).1, ?_⟩
  simp only [send, h2, if_pos, sendCore, hc]
  split <;> simp

/-- C6 witness: the subscribe/send/unsubscribe/send sequence on a fresh
engine for the name test_receiver. -/
theorem unsubscribe_no_stale_registration_witness :
    ∃ d, send (unsubscribe (send (subscribe engReady "test_receiver").1
          "test_receiver" .bang).1 "test_receiver").1 "test_receiver" (.mfloat 1)
      = ((unsubscribe (send (subscribe engReady "test_receiver").1
          "test_receiver" .bang).1 "test_receiver").1, .ok (d, [])) :=
  unsubscribe_no_stale_registration engReady "test_receiver" .bang (.mfloat 1) (by decide)

/-- C5: closing a patch unregisters all of its named receivers — for a
name local to the closed patch (declared by no other open patch and not
subscribed), `exists` is false after the close. -/
theorem close_unregisters_local_receivers (e : Engine) (pid : Nat) (n : String)
    (h : e.live = true)
    (hp : ∃ p ∈ e.patches, p.pid = pid ∧ n ∈ p.receivers)
    (hsub : n ∉ e.subs)
    (hother : ∀ q ∈ e.patches, q.pid ≠ pid → n ∉ q.receivers) :
    ∃ e1, close_patch e pid = (e1, .ok ()) ∧ existsCore e1 n = false := by
  have hopen : e.patches.any (fun p => p.pid == pid) = true := by
    rcases hp with ⟨p, hpm, hpid, _⟩
    rw [List.any_eq_true]
    exact ⟨p, hpm, by simp [hpid]⟩
  refine ⟨{ e with patches := e.patches.filter (fun p => p.pid ≠ pid) }, ?_, ?_⟩
  · simp [close_patch, h, hopen]
  · simp only [existsCore, Bool.or_eq_false_iff]
    constructor
    · simpa using hsub
    · rw [List.any_eq_false]
      intro p hpmem
      rw [List.mem_filter] at hpmem
      have hne : p.pid ≠ pid := by simpa using hpmem.2
      simpa using hother p hpmem.1 hne

/-- C5 witness: closing the patch that declares `mybang` on an engine
where nothing else declares it makes `exists` false. -/
theorem close_unregisters_local_receivers_witness :
    ∃ e1, close_patch engPatch 1 = (e1, .ok ()) ∧ existsCore e1 "mybang" = false :=
  close_unregisters_local_receivers engPatch 1 "mybang"
    (by decide) (by decide) (by decide) (by decide)

/-- C3 counterexample: on the concrete engine obtained by init-then-
release, a second `init` does not fail with NotInitializedError — it
succeeds (returns true) and brings the engine back to the Ready state,
contradicting "Released is terminal" as claimed. -/
theorem release_not_terminal_counterexample :
    (init (release (init emptyEngine).1).1).2 = true
    ∧ ((init (release (init emptyEngine).1).1).1).life = .ready := by
  exact ⟨rfl, rfl⟩

/-- C3 amended: on a released engine every operation other than `init`
fails with NotInitializedError and leaves the state unchanged; `init`
itself succeeds on a released engine and returns it to Ready with no
subscriptions and no open patches (re-initialization is permitted, as the
repository's test_release exercises). -/
theorem released_ops_fail_until_reinit (e : Engine) (op : Op)
    (h : e.life = .released) (hop : op ≠ Op.opInit) :
    runOp op e = (e, some .notInited)
    ∧ ((init e).1).life = .ready
    ∧ ((init e).1).subs = [] ∧ ((init e).1).patches = [] := by
  have hl : e.live = false := by simp [Engine.live, h]
  refine ⟨?_, by simp [init, h], by simp [init, h], by simp [init, h]⟩
  cases op
  case opInit => exact absurd rfl hop
  all_goals
    simp [runOp, errOf, hl, release, dsp, subscribe, unsubscribe, pdExists, send,
      open_patch, close_patch, get_blocksize, array_size, write_array, read_array,
      start_message, add_float, add_symbol, finish_list, finish_message,
      noteon, controlchange, programchange, pitchbend, aftertouch]

/-- C3 amended witness: `release` on a concrete released engine fails
with NotInitializedError, while `init` revives it to Ready. -/
theorem released_ops_fail_until_reinit_witness :
    runOp .opRelease (release (init emptyEngine).1).1
      = ((release (init emptyEngine).1).1, some .notInited)
    ∧ ((init (release (init emptyEngine).1).1).1).life = .ready
    ∧ ((init (release (init emptyEngine).1).1).1).subs = []
    ∧ ((init (release (init emptyEngine).1).1).1).patches = [] :=
  released_ops_fail_until_reinit (release (init emptyEngine).1).1 .opRelease
    (by decide) (by decide)

/-- C4: the block size is fixed at 64 for the lifetime of a session —
`get_blocksize` answers the stored block size (64 on every engine whose
session was negotiated at init), and no operation of the surface changes
it. -/
theorem blocksize_fixed (e : Engine) (op : Op) (h64 : e.blocksize = 64) :
    ((runOp op e).1).blocksize = 64
    ∧ (e.live = true → get_blocksize e = (e, .ok 64))
    ∧ ((init e).1).blocksize = 64 := by
  refine ⟨?_, ?_, ?_⟩
  · cases op <;>
      simp only [runOp, init, release, dsp, subscribe, unsubscribe, pdExists, send,
        open_patch, close_patch, get_blocksize, array_size, write_array, read_array,
        start_message, add_float, add_symbol, finish_list, finish_message,
        noteon, controlchange, programchange, pitchbend, aftertouch, addAtomCore] <;>
      (repeat' split) <;> simp [h64]
  · intro h
    simp [get_blocksize, h, h64]
  · unfold init
    split <;> simp [h64]

/-- C4 witness: on the engine with an open patch, a send leaves the block
size at 64 and `get_blocksize` answers 64. -/
theorem blocksize_fixed_witness :
    ((runOp (.opSend "mybang" .bang) engPatch).1).blocksize = 64
    ∧ (engPatch.live = true → get_blocksize engPatch = (engPatch, .ok 64))
    ∧ ((init engPatch).1).blocksize = 64 :=
  blocksize_fixed engPatch (.opSend "mybang" .bang) (by decide)

/-- C2: opening an unresolvable or unparseable patch source fails
synchronously with InvalidPatchError — reported as a result, not a crash
— and returns the engine unchanged, so every previously loaded patch is
intact. (The wrapped native library instead crashes the process here;
the specification mandates this graceful failure.) -/
theorem open_invalid_patch_fails_cleanly (e : Engine) (h : e.live = true) :
    open_patch e .invalid = (e, .error .invalidPatch) := by
  simp [open_patch, h]

/-- C2 witness: on an engine with a previously loaded patch, opening an
invalid source errors with InvalidPatchError and leaves the state — the
loaded patch included — untouched. -/
theorem open_invalid_patch_fails_cleanly_witness :
    open_patch engPatch .invalid = (engPatch, .error .invalidPatch) :=
  open_invalid_patch_fails_cleanly engPatch (by decide)

theorem finish_list_fst_live (e : Engine) (n : String) :
    ((finish_list e n).1).live = e.live := by
  unfold finish_list
  (repeat' split) <;> rfl

theorem start_message_fst_live (e : Engine) (cap : Nat) :
    ((start_message e cap).1).live = e.live := by
  unfold start_message
  split_ifs <;> rfl

theorem add_float_fst_live (e : Engine) (x : Int) :
    ((add_float e x).1).live = e.live := by
  unfold add_float addAtomCore
  (repeat' split) <;> rfl

theorem finish_list_fst_stage (e : Engine) (n : String) (h : e.live = true) :
    ((finish_list e n).1).stage = none := by
  simp only [finish_list, h]
  (repeat' split) <;> simp_all

theorem finish_message_fst_stage (e : Engine) (sel n : String) (h : e.live = true) :
    ((finish_message e sel n).1).stage = none := by
  simp only [finish_message, h]
  (repeat' split) <;> simp_all

/-- C7: finalizing a staged compound message clears the stage even when
delivery fails (both finish variants), so a message built afterwards via
start/add carries exactly the freshly added atoms — no stale atom from
the failed message leaks into it. -/
theorem message_builder_clears_stage (e : Engine) (n sel : String) (cap : Nat)
    (x : Int) (s : String) (h : e.live = true) (hcap : 2 ≤ cap) :
    ((finish_list e n).1).stage = none
    ∧ ((finish_message e sel n).1).stage = none
    ∧ ((add_symbol (add_float (start_message (finish_list e n).1 cap).1 x).1 s).1).stage
        = some (cap, [.afloat x, .asymbol s]) := by
  have h1 : ((finish_list e n).1).live = true := by
    rw [finish_list_fst_live]; exact h
  refine ⟨finish_list_fst_stage e n h, finish_message_fst_stage e sel n h, ?_⟩
  have h2 : ((start_message (finish_list e n).1 cap).1).stage = some (cap, []) := by
    simp [start_message, h1]
  have h2l : ((start_message (finish_list e n).1 cap).1).live = true := by
    rw [start_message_fst_live]; exact h1
  have hc0 : 0 < cap := by omega
  have h3 : ((add_float (start_message (finish_list e n).1 cap).1 x).1).stage
      = some (cap, [Atom.afloat x]) := by
    simp [add_float, h2l, addAtomCore, h2, hc0]
  have h3l : ((add_float (start_message (finish_list e n).1 cap).1 x).1).live = true := by
    rw [add_float_fst_live]; exact h2l
  have hc1 : 1 < cap := by omega
  simp [add_symbol, h3l, addAtomCore, h3, hc1]

/-- C7 witness: the test_message_building scenario — after a finish_list
whose receiver does not exist, a new start/add/add builds a stage holding
exactly the new atoms. -/
theorem message_builder_clears_stage_witness :
    ((finish_list engReady "nonexistent_receiver_12345").1).stage = none
    ∧ ((finish_message engReady "foo" "nonexistent_receiver_12345").1).stage = none
    ∧ ((add_symbol (add_float (start_message
          (finish_list engReady "nonexistent_receiver_12345").1 10).1 1).1 "test").1).stage
        = some (10, [.afloat 1, .asymbol "test"]) :=
  message_builder_clears_stage engReady "nonexistent_receiver_12345" "foo" 10 1 "test"
    (by decide) (by decide)

theorem lookup_map_replace (l : List (String × List Int)) (n : String) (d2 : List Int)
    (h : (l.lookup n).isSome = true) :
    (l.map (replaceEntry n d2)).lookup n = some d2 := by
  induction l with
  | nil => simp [List.lookup] at h
  | cons a l ih =>
    obtain ⟨k, v⟩ := a
    by_cases hk : k = n
    · subst hk
      simp [replaceEntry, List.lookup_cons]
    · have hne : (n == k) = false := beq_eq_false_iff_ne.mpr fun hnk => hk hnk.symm
      simp only [List.lookup_cons, hne] at h
      simp [replaceEntry, hk, List.lookup_cons, hne, ih h]

theorem lookupArray_setFirstArray (ps : List Patch) (n : String) (d d2 : List Int)
    (h : lookupArray ps n = some d) :
    lookupArray (setFirstArray ps n d2) n = some d2 := by
  induction ps with
  | nil => simp [lookupArray] at h
  | cons p ps ih =>
    by_cases hp : (p.arrays.lookup n).isSome = true
    · have hlm := lookup_map_replace p.arrays n d2 hp
      simp [setFirstArray, hp, lookupArray, Patch.setArray, hlm]
    · have hnone : p.arrays.lookup n = none := by
        cases hx : p.arrays.lookup n with
        | none => rfl
        | some d3 => rw [hx] at hp; simp at hp
      simp only [lookupArray, hnone] at h
      simp [setFirstArray, hp, lookupArray, hnone, ih h]

theorem writeSlice_length (d : List Int) (off : Nat) (xs : List Int)
    (h : off + xs.length ≤ d.length) :
    (writeSlice d off xs).length = d.length := by
  simp [writeSlice]
  omega

theorem writeSlice_read (d : List Int) (off : Nat) (xs : List Int)
    (h : off + xs.length ≤ d.length) :
    ((writeSlice d off xs).drop off).take xs.length = xs := by
  unfold writeSlice
  have hto : (d.take off).length = off := by
    rw [List.length_take]; omega
  rw [List.append_assoc, List.drop_left' hto, List.take_left]

/-- C8: a write reaching past the declared array length fails with
OutOfRangeError and modifies nothing, while a write entirely within the
declared length followed by a read of the same range returns exactly the
samples written. -/
theorem array_write_bounds_roundtrip (e : Engine) (n : String) (d : List Int)
    (off : Nat) (xs : List Int) (h : e.live = true)
    (hd : lookupArray e.patches n = some d) :
    (d.length < off + xs.length → write_array e n off xs = (e, .error .outOfRange))
    ∧ (off + xs.length ≤ d.length →
        ∃ e1, write_array e n off xs = (e1, .ok ())
          ∧ read_array e1 n off xs.length = (e1, .ok xs)) := by
  constructor
  · intro hover
    have : ¬ (off + xs.length ≤ d.length) := by omega
    simp [write_array, h, hd, this]
  · intro hle
    refine ⟨{ e with patches := setFirstArray e.patches n (writeSlice d off xs) }, ?_, ?_⟩
    · simp [write_array, h, hd, hle]
    · have hlook : lookupArray (setFirstArray e.patches n (writeSlice d off xs)) n
          = some (writeSlice d off xs) := lookupArray_setFirstArray _ _ _ _ hd
      have hlive : ({ e with
          patches := setFirstArray e.patches n (writeSlice d off xs) } : Engine).live = true := h
      have hlen : off + xs.length ≤ (writeSlice d off xs).length := by
        rw [writeSlice_length d off xs hle]; exact hle
      simp [read_array, hlive, hlook, hlen, writeSlice_read d off xs hle]

/-- C8 witness: on the open patch's 4-sample array, a 3-sample write at
offset 2 overruns and errors, while a 2-sample write at offset 2
round-trips exactly. -/
theorem array_write_bounds_roundtrip_witness :
    write_array engPatch "array1" 2 [7, 8, 9] = (engPatch, .error .outOfRange)
    ∧ ∃ e1, write_array engPatch "array1" 2 [7, 8] = (e1, .ok ())
        ∧ read_array e1 "array1" 2 2 = (e1, .ok [7, 8]) := by
  constructor
  · exact (array_write_bounds_roundtrip engPatch "array1" [0, 0, 0, 0] 2 [7, 8, 9]
      (by decide) (by decide)).1 (by decide)
  · exact (array_write_bounds_roundtrip engPatch "array1" [0, 0, 0, 0] 2 [7, 8]
      (by decide) (by decide)).2 (by decide)

/-- C9: for a name with no declared array in any open patch, array_size
answers a strictly negative integer — no exception, no zero, no NotFound
value — whatever patches happen to be open. -/
theorem array_size_negative_when_missing (e : Engine) (n : String)
    (h : e.live = true) (hn : lookupArray e.patches n = none) :
    ∃ r : Int, array_size e n = (e, .ok r) ∧ r < 0 :=
  ⟨-1, by simp [array_size, h, hn], by norm_num⟩

/-- C9 witness: on the engine with an unrelated patch open, the missing
array name gets a strictly negative size. -/
theorem array_size_negative_when_missing_witness :
    ∃ r : Int, array_size engPatch "nonexistent_array_12345" = (engPatch, .ok r) ∧ r < 0 :=
  array_size_negative_when_missing engPatch "nonexistent_array_12345" (by decide) (by decide)

/-- C10: after init, every MIDI send with in-range arguments reports
success (true) — whatever the set of open patches, in particular with no
patch loaded and nothing to consume the event; MIDI sends never report
non-delivery. -/
theorem midi_sends_report_success (e : Engine) (ch pitch vel ctl cval pval bval aval : Int)
    (h : e.live = true) (hch : chanOk ch = true)
    (hpitch : in7bit pitch = true) (hvel : in7bit vel = true)
    (hctl : in7bit ctl = true) (hcval : in7bit cval = true)
    (hpval : in7bit pval = true)
    (hbval : decide (-8192 ≤ bval ∧ bval ≤ 8191) = true)
    (haval : in7bit aval = true) :
    (noteon e ch pitch vel).2 = .ok true
    ∧ (controlchange e ch ctl cval).2 = .ok true
    ∧ (programchange e ch pval).2 = .ok true
    ∧ (pitchbend e ch bval).2 = .ok true
    ∧ (aftertouch e ch aval).2 = .ok true := by
  refine ⟨?_, ?_, ?_, ?_, ?_⟩ <;>
    simp [noteon, controlchange, programchange, pitchbend, aftertouch, h, hch,
      hpitch, hvel, hctl, hcval, hpval, hbval, haval]

/-- C10 witness: the test_midi_to_nonexistent arguments on a fresh engine
with no patch loaded — all five sends report success. -/
theorem midi_sends_report_success_witness :
    (noteon engReady 0 60 100).2 = .ok true
    ∧ (controlchange engReady 0 1 64).2 = .ok true
    ∧ (programchange engReady 0 1).2 = .ok true
    ∧ (pitchbend engReady 0 0).2 = .ok true
    ∧ (aftertouch engReady 0 64).2 = .ok true :=
  midi_sends_report_success engReady 0 60 100 1 64 1 0 64 (by decide) (by decide)
    (by decide) (by decide) (by decide) (by decide) (by decide) (by decide) (by decide)

end Cypd

